import Mathlib

/-!
Verification development for the Ticket bot repository.

Shallow embedding of the ticket system: the SQLite tables of
src/utils/db_manager.py become Lean structures over association lists, the
db_manager functions become pure state-passing functions, and the interaction
handlers of src/cogs/ticket_cog.py, src/cogs/ticket_commands.py and
src/utils/views.py become functions from an explicit world (guild, user,
platform-call results) and a database state to a result paired with the
database state reached when the handler returns or raises.

Python runtime behaviour that the source relies on is modelled explicitly:

* sqlite3.Row (the row factory set in db_manager) supports indexing and keys()
  but has no .get method, so every `row.get(...)` call in the source raises
  AttributeError.  This is modelled by `rowGet` below, which always returns
  that error.
* sqlite3 raises ProgrammingError when the number of supplied parameter
  bindings differs from the number of ? placeholders in the statement.
* cogs/ticket_commands.py never imports datetime, so evaluating
  `datetime.datetime.now(...)` there raises NameError.
* Exceptions abort the rest of a handler; statements already committed to the
  database keep their effect.  Handler results are therefore modelled as
  `Except PyError α × DBState`: the Except carries the normal result or the
  escaping exception, and the DBState component is the database content at
  the moment the handler returned or raised.
-/

/-- Python-level exceptions that the source can raise. -/
inductive PyError
  | attributeError (msg : String)
  | programmingError (msg : String)
  | nameError (msg : String)
  | indexError
  | valueError
  | httpError
deriving DecidableEq

/-- A user-visible reaction of a handler: an (ephemeral) message, showing the
close-ticket modal, or silently returning without responding. -/
inductive Reply
  | msg (text : String)
  | modal
  | silent
deriving DecidableEq

/-! ## Python string primitives

Core Lean `String.replace`, `String.splitOn` and `String.toInt?` do not reduce
in the kernel, so the Python string operations used by the source are
implemented structurally over the character list of the string.  Each is a
direct model of the CPython operation used at the cited line. -/

/-- Python `str.lower()` (ASCII range, which covers every name the source
manipulates). -/
def pyLower (s : String) : String := String.mk (s.data.map Char.toLower)

/-- Python `str.replace(" ", "-")`: the pattern is a single character, so the
replacement is a character map. -/
def pyReplaceSpaceHyphen (s : String) : String :=
  String.mk (s.data.map (fun c => if c = ' ' then '-' else c))

def splitAux (sep : Char) : List Char → List Char → List String
  | [], acc => [String.mk acc.reverse]
  | c :: rest, acc =>
    if c = sep then String.mk acc.reverse :: splitAux sep rest []
    else splitAux sep rest (c :: acc)

/-- Python `str.split(sep)` for a one-character separator: splitting an empty
string gives `[""]`, and a string without the separator gives a singleton. -/
def pySplit (s : String) (sep : Char) : List String := splitAux sep s.data []

def digitsToNatAux : List Char → Nat → Option Nat
  | [], n => some n
  | c :: rest, n => if c.isDigit then digitsToNatAux rest (n * 10 + (c.toNat - 48)) else none

def digitsToNat : List Char → Option Nat
  | [] => none
  | l => digitsToNatAux l 0

/-- Python `int(s)` restricted to an optional minus sign followed by decimal
digits (the only shapes that occur in structured identifiers); any other
input raises ValueError, modelled as `none`. -/
def pyInt (s : String) : Option Int :=
  match s.data with
  | '-' :: rest => (digitsToNat rest).map (fun n => -(n : Int))
  | l => (digitsToNat l).map Int.ofNat

/-- Python list indexing `l[i]`: raises IndexError when out of range. -/
def pyIndex {α : Type} (l : List α) (i : Nat) : Except PyError α :=
  match l.get? i with
  | some a => .ok a
  | none => .error .indexError

/-- Python truthiness of a nullable integer column: None and 0 are falsy. -/
def optTruthy : Option Nat → Bool
  | none => false
  | some v => v ≠ 0

/-! ## Data model (db_manager.py, initialize_database, lines 8-65)

Column-for-column translation of the three tables.  Nullable columns are
`Option`; JSON TEXT columns holding role-id lists are `Option (List Nat)`
(json.dumps on write, json.loads on read round-trip).  AUTOINCREMENT
surrogate keys (`type_id`, `ticket_db_id`) are never read by the source and
are omitted.  Timestamps are abstract `Nat` instants. -/

/-- One row of `guild_configs` minus its primary key `guild_id`; field
defaults are the SQL column DEFAULTs. -/
structure GuildConfig where
  panel_channel_id : Option Nat := none
  panel_message_id : Option Nat := none
  ticket_channel_category_id : Option Nat := none
  archive_channel_category_id : Option Nat := none
  transcript_channel_id : Option Nat := none
  log_channel_id : Option Nat := none
  default_staff_roles : Option (List Nat) := none
  ticket_naming_format : String := "ticket-\x7buser_short\x7d-\x7bid\x7d"
  ticket_limit_per_user : Nat := 1
  allow_user_close : Nat := 1
  ticket_counter : Nat := 0
deriving DecidableEq

/-- One row of `ticket_types`; UNIQUE (guild_id, name). -/
structure TicketTypeRow where
  guild_id : Nat
  name : String
  display_name : String
  description : Option String := none
  emoji : Option String := none
  button_style : String := "primary"
  welcome_message : Option String := none
  specific_staff_roles : Option (List Nat) := none
deriving DecidableEq

/-- One row of `tickets`; `channel_id` is UNIQUE. -/
structure TicketRow where
  guild_id : Nat
  ticket_display_id : Nat
  user_id : Nat
  channel_id : Nat
  ticket_type_name : String
  status : String := "open"
  created_at : Nat := 0
  claimed_by_staff_id : Option Nat := none
  closed_by_user_id : Option Nat := none
  closed_at : Option Nat := none
  close_reason : Option String := none
  transcript_message_id : Option String := none
deriving DecidableEq

/-- The whole database: the three relations, with `guild_configs` keyed by
guild id. -/
structure DBState where
  guild_configs : List (Nat × GuildConfig) := []
  ticket_types : List TicketTypeRow := []
  tickets : List TicketRow := []
deriving DecidableEq

/-- SELECT on the `guild_configs` primary key. -/
def cfgLookup : List (Nat × GuildConfig) → Nat → Option GuildConfig
  | [], _ => none
  | (k, v) :: t, g => if k = g then some v else cfgLookup t g

/-- db_manager.get_guild_config (lines 68-72). -/
def get_guild_config (s : DBState) (g : Nat) : Option GuildConfig :=
  cfgLookup s.guild_configs g

/-- Every `guild_config.get(...)` / `ticket_type_db.get(...)` call in the
source: sqlite3.Row has no attribute `get`, so the call raises
AttributeError regardless of the row, the field and the default. -/
def rowGet {β : Type} (_row : α) (_field : String) (_default : β) : Except PyError β :=
  .error (.attributeError "sqlite3.Row object has no attribute get")

/-! ## update_guild_config (db_manager.py, lines 74-107)

The function builds `INSERT INTO guild_configs (guild_id, c1, ..., cn)
VALUES (?, ..., ?) ON CONFLICT(guild_id) DO UPDATE SET c1 = ?, ..., cn = ?`
with `n + 1` placeholders in the VALUES list (line 87) and `n` placeholders
in the SET clause (line 81), i.e. `2n + 1` in total, and then executes it
with `insert_values + update_values` (line 99), i.e. `(1 + n) + (n + 1) =
2n + 2` supplied bindings.  sqlite3 raises ProgrammingError on the mismatch,
so the call aborts before the simpler `INSERT OR REPLACE` statement at lines
102-105, which is dead code.  That dead statement is still modelled
(`insert_or_replace_guild_config` below) because it documents what the
function would do if the first statement were removed: REPLACE deletes the
conflicting row and inserts a fresh one, resetting every unnamed column to
its DEFAULT. -/

/-- A keyword argument of update_guild_config: one settable column with its
new value. -/
inductive ConfigField
  | panel_channel_id (v : Option Nat)
  | panel_message_id (v : Option Nat)
  | ticket_channel_category_id (v : Option Nat)
  | archive_channel_category_id (v : Option Nat)
  | transcript_channel_id (v : Option Nat)
  | log_channel_id (v : Option Nat)
  | default_staff_roles (v : Option (List Nat))
  | ticket_naming_format (v : String)
  | ticket_limit_per_user (v : Nat)
  | allow_user_close (v : Nat)
  | ticket_counter (v : Nat)
deriving DecidableEq

def applyConfigField (c : GuildConfig) : ConfigField → GuildConfig
  | .panel_channel_id v => { c with panel_channel_id := v }
  | .panel_message_id v => { c with panel_message_id := v }
  | .ticket_channel_category_id v => { c with ticket_channel_category_id := v }
  | .archive_channel_category_id v => { c with archive_channel_category_id := v }
  | .transcript_channel_id v => { c with transcript_channel_id := v }
  | .log_channel_id v => { c with log_channel_id := v }
  | .default_staff_roles v => { c with default_staff_roles := v }
  | .ticket_naming_format v => { c with ticket_naming_format := v }
  | .ticket_limit_per_user v => { c with ticket_limit_per_user := v }
  | .allow_user_close v => { c with allow_user_close := v }
  | .ticket_counter v => { c with ticket_counter := v }

/-- The dead `INSERT OR REPLACE` at lines 102-105: delete any existing row
for the guild and insert a fresh row built from column DEFAULTs plus exactly
the named fields. -/
def insert_or_replace_guild_config (s : DBState) (g : Nat) (kwargs : List ConfigField) :
    DBState :=
  { s with guild_configs :=
      (s.guild_configs.filter (fun p => p.1 ≠ g)) ++
        [(g, kwargs.foldl applyConfigField {})] }

/-- db_manager.update_guild_config (lines 74-107).  The binding-count check
mirrors sqlite3: `insertQs` placeholders at line 87, `updateQs` at line 81,
`supplied` values at lines 96-97.  Since `supplied` always exceeds the
placeholder count by one, the first execute at line 99 raises and nothing is
written. -/
def update_guild_config (s : DBState) (g : Nat) (kwargs : List ConfigField) :
    Except PyError DBState :=
  let insertQs := kwargs.length + 1
  let updateQs := kwargs.length
  let supplied := (1 + kwargs.length) + (kwargs.length + 1)
  if supplied ≠ insertQs + updateQs then
    .error (.programmingError "Incorrect number of bindings supplied")
  else
    .ok (insert_or_replace_guild_config s g kwargs)

/-! ## get_and_increment_ticket_counter (db_manager.py, lines 110-123)

The body runs four separate SQL statements with commits in between, each an
atomic step of the storage layer; the awaits between them are the points
where concurrent calls interleave:
  step 1 (lines 113-117): SELECT the counter; if the row is missing, INSERT
    OR IGNORE a row with counter 0 and commit;
  step 2 (lines 119-120): UPDATE ticket_counter = ticket_counter + 1, commit;
  step 3 (lines 121-123): SELECT the counter again and return it
    (returning 1 if the row vanished).
The sequential function is the composition of the three steps. -/

def ctr_ensure_row (s : DBState) (g : Nat) : DBState :=
  match cfgLookup s.guild_configs g with
  | some _ => s
  | none => { s with guild_configs := s.guild_configs ++ [(g, { ticket_counter := 0 })] }

def ctr_update (s : DBState) (g : Nat) : DBState :=
  { s with guild_configs :=
      s.guild_configs.map (fun p =>
        (p.1, if p.1 = g then { p.2 with ticket_counter := p.2.ticket_counter + 1 } else p.2)) }

def ctr_read (s : DBState) (g : Nat) : Nat :=
  match cfgLookup s.guild_configs g with
  | some c => c.ticket_counter
  | none => 1

def get_and_increment_ticket_counter (s : DBState) (g : Nat) : Nat × DBState :=
  let s1 := ctr_ensure_row s g
  let s2 := ctr_update s1 g
  (ctr_read s2 g, s2)

/-! ## Ticket type functions (db_manager.py, lines 126-155) -/

/-- The normalization applied to internal ticket-type names:
`name.lower().replace(" ", "-")` (db_manager line 133, config_cog lines 60
and 100). -/
def normalize_type_name (s : String) : String :=
  pyReplaceSpaceHyphen (pyLower s)

/-- db_manager.add_ticket_type (lines 126-137): normalizes the name, inserts,
and returns False when the UNIQUE (guild_id, name) constraint fires
(IntegrityError caught at line 136).  An empty `specific_staff_roles` list is
stored as NULL (`json.dumps(l) if l else None`, line 127). -/
def add_ticket_type (s : DBState) (g : Nat) (name display_name : String)
    (description emoji : Option String := none) (button_style : String := "primary")
    (welcome_message : Option String := none)
    (specific_staff_roles : Option (List Nat) := none) : Bool × DBState :=
  let key := normalize_type_name name
  let roles := match specific_staff_roles with
    | some l => if l.isEmpty then none else some l
    | none => none
  if s.ticket_types.any (fun r => r.guild_id = g ∧ r.name = key) then
    (false, s)
  else
    (true, { s with ticket_types := s.ticket_types ++
      [{ guild_id := g, name := key, display_name := display_name,
         description := description, emoji := emoji, button_style := button_style,
         welcome_message := welcome_message, specific_staff_roles := roles }] })

/-- db_manager.get_ticket_type_by_name (lines 145-149): exact WHERE name = ?
match on the raw argument, with no normalization. -/
def get_ticket_type_by_name (s : DBState) (g : Nat) (name : String) : Option TicketTypeRow :=
  s.ticket_types.find? (fun r => r.guild_id = g ∧ r.name = name)

/-- db_manager.remove_ticket_type (lines 151-155): exact-match DELETE,
returning rowcount > 0. -/
def remove_ticket_type (s : DBState) (g : Nat) (name : String) : Bool × DBState :=
  (s.ticket_types.any (fun r => r.guild_id = g ∧ r.name = name),
   { s with ticket_types := s.ticket_types.filter (fun r => ¬(r.guild_id = g ∧ r.name = name)) })

/-- ConfigCog.remove_type (config_cog.py, lines 96-106): normalizes the
human-typed internal name (line 100) and calls remove_ticket_type with the
normalized key. -/
def cog_remove_type (s : DBState) (g : Nat) (raw : String) : Bool × DBState :=
  remove_ticket_type s g (normalize_type_name raw)

/-! ## Ticket functions (db_manager.py, lines 158-183) -/

/-- db_manager.create_ticket (lines 158-164): plain INSERT with status
'open'; inserting a second row for an existing channel_id violates the
UNIQUE constraint and raises (nothing catches it at this call). -/
def create_ticket (s : DBState) (g user_id channel_id : Nat) (ticket_type_name : String)
    (ticket_display_id : Nat) (now : Nat) : Except PyError DBState :=
  if s.tickets.any (fun r => r.channel_id = channel_id) then
    .error (.programmingError "UNIQUE constraint failed tickets.channel_id")
  else
    .ok { s with tickets := s.tickets ++
      [{ guild_id := g, ticket_display_id := ticket_display_id, user_id := user_id,
         channel_id := channel_id, ticket_type_name := ticket_type_name,
         status := "open", created_at := now }] }

/-- db_manager.get_ticket_by_channel (lines 166-170). -/
def get_ticket_by_channel (s : DBState) (channel_id : Nat) : Option TicketRow :=
  s.tickets.find? (fun r => r.channel_id = channel_id)

/-- db_manager.get_open_tickets_by_user (lines 172-176): status != 'closed'. -/
def get_open_tickets_by_user (s : DBState) (g user_id : Nat) : List TicketRow :=
  s.tickets.filter (fun r => r.guild_id = g ∧ r.user_id = user_id ∧ r.status ≠ "closed")

/-- db_manager.update_ticket (lines 178-183), specialized to the keyword set
used by both call sites (views.py lines 76-83, ticket_commands.py lines
63-70): status, closed_by_user_id, closed_at, close_reason,
transcript_message_id, applied to every row matching the channel (at most
one, by uniqueness). -/
def update_ticket (s : DBState) (channel_id : Nat) (status : String) (closed_by : Nat)
    (closed_at : Nat) (reason : String) (transcript_ref : Option String) : DBState :=
  { s with tickets := s.tickets.map (fun r =>
      if r.channel_id = channel_id then
        { r with status := status, closed_by_user_id := some closed_by,
                 closed_at := some closed_at, close_reason := some reason,
                 transcript_message_id := transcript_ref }
      else r) }

/-! ## Guild world (discord objects as seen by the cogs)

Roles and channels are their ids.  `guild.get_role r` resolves iff the role
is live in the guild; the @everyone role `default_role` is itself a live
role.  `channels` are the ids `guild.get_channel` resolves; `categories` are
the subset that are CategoryChannel instances. -/

structure Guild where
  gid : Nat
  live_roles : List Nat := []
  default_role : Nat := 0
  channels : List Nat := []
  categories : List Nat := []

/-- discord.Guild.get_role. -/
def Guild.get_role (g : Guild) (r : Nat) : Option Nat :=
  if r ∈ g.live_roles then some r else none

/-! ## TicketCog.get_staff_roles_for_ticket_type (ticket_cog.py, lines 18-39) -/

/-- Lines 22-27: resolve the ticket type's dedicated staff roles, dropping
ids that `guild.get_role` cannot resolve.  The JSON text column is falsy
when NULL (`if ticket_type_db and ticket_type_db[...]`). -/
def resolve_specific_roles (s : DBState) (guild : Guild) (ticket_type_name : String) :
    List Nat :=
  match get_ticket_type_by_name s guild.gid ticket_type_name with
  | some row =>
    match row.specific_staff_roles with
    | some ids => ids.filterMap guild.get_role
    | none => []
  | none => []

/-- Lines 33-38: resolve the community's default staff roles the same way
(`if guild_config and guild_config[...]`). -/
def resolve_default_roles (guild : Guild) (cfg : Option GuildConfig) : List Nat :=
  match cfg with
  | some c =>
    match c.default_staff_roles with
    | some ids => ids.filterMap guild.get_role
    | none => []
  | none => []

/-- TicketCog.get_staff_roles_for_ticket_type (lines 18-39): dedicated roles
if any resolved, else default roles if any resolved, else the one-element
fallback `[guild.default_role]` (line 39). -/
def get_staff_roles_for_ticket_type (s : DBState) (guild : Guild)
    (ticket_type_name : String) (cfg : Option GuildConfig) : List Nat :=
  let specific := resolve_specific_roles s guild ticket_type_name
  if ¬ specific.isEmpty then specific
  else
    let defaults := resolve_default_roles guild cfg
    if ¬ defaults.isEmpty then defaults else [guild.default_role]

/-- The creation flow's refusal condition at ticket_cog line 89:
`not staff_roles_to_apply or staff_roles_to_apply == [guild.default_role]`. -/
def staff_roles_guard (roles : List Nat) (default_role : Nat) : Bool :=
  roles.isEmpty || roles = [default_role]

/-- Line 183 (and ticket_commands line 39): the interactor is staff iff one
of the applicable roles other than @everyone is among the roles they hold. -/
def is_staff_for (roles : List Nat) (default_role : Nat) (user_roles : List Nat) : Bool :=
  roles.any (fun r => r ≠ default_role ∧ r ∈ user_roles)

/-! ## Channel naming (ticket_cog.py, lines 96-100) -/

/-- Python `f"{id:04d}"`: decimal digits left-padded with zeros to width 4. -/
def pad4 (n : Nat) : String :=
  let s := toString n
  String.mk (List.replicate (4 - s.length) '0' ++ s.data)

/-- Python `str.replace(old, new)` for the multi-character placeholder
patterns of the naming format: structural scan replacing each occurrence of
`pat` (a nonempty pattern) left to right. -/
def replaceListAux (pat new : List Char) : List Char → Nat → List Char
  | l, fuel =>
    match fuel with
    | 0 => l
    | fuel + 1 =>
      match l with
      | [] => []
      | c :: rest =>
        if pat ≠ [] ∧ l.take pat.length = pat then
          new ++ replaceListAux pat new (l.drop pat.length) fuel
        else
          c :: replaceListAux pat new rest fuel

def pyReplace (s pat new : String) : String :=
  String.mk (replaceListAux pat.data new.data s.data s.data.length)

/-- Lines 98-99: `user.name.split('#')[0][:10]` then the four placeholder
substitutions. -/
def channel_name_raw (fmt user_name : String) (display_id : Nat) (type_name : String) :
    String :=
  let user_short := String.mk (((pySplit user_name '#').headD "").data.take 10)
  pyReplace (pyReplace (pyReplace (pyReplace fmt "\x7buser_full\x7d" user_name)
    "\x7buser_short\x7d" user_short) "\x7bid\x7d" (pad4 display_id)) "\x7btype\x7d" type_name

/-- Line 100: lower-case, keep only alphanumerics and hyphens, truncate to
100 characters. -/
def sanitize_channel_name (raw : String) : String :=
  String.mk ((((pyLower raw).data.filter (fun c => c.isAlphanum || c = '-')).take 100))

/-! ## The component-interaction handler (ticket_cog.py, lines 42-190)

`on_interaction` is modelled for component interactions that carry a
custom_id (the early returns at lines 44-47 filter everything else before
any state is touched).  The interaction context is the guild, the user's id,
name and held roles, and the channel the click arrived on.  Platform calls
whose outcome the cog cannot determine are oracle parameters:
`create_channel_res` is the result of `category.create_text_channel` at
lines 111-116 (the surrounding try/except catches HTTPException at line
117).  `now` is the clock instant used for created_at. -/

structure Interaction where
  guild : Guild
  user_id : Nat
  user_name : String := ""
  user_roles : List Nat := []
  channel_id : Nat

/-- The ticket-creation branch, lines 64-156, entered after the custom_id
has parsed as `ticket_panel:create:<gid>:<type>`.  Returns the replies sent
together with the database state at return or raise time.

Lines 126-156 (welcome embed, creation followup, staff log notification) are
collapsed into the final reply: they are behind `ticket_type_db.get` at line
126, which raises AttributeError, itself behind `guild_config.get` at lines
79 and 97, which raise first, so no execution reaches them; none of them
touches the database. -/
def panel_create_flow (s : DBState) (i : Interaction) (gid_from_id : Int)
    (ticket_type_name : String) (create_channel_res : Except PyError Nat) (now : Nat) :
    Except PyError (List Reply) × DBState :=
  -- line 64: token/guild consistency check
  if (i.guild.gid : Int) ≠ gid_from_id then
    (.ok [.msg "Button belongs to a different server."], s)
  else
    let cfg := get_guild_config s i.guild.gid
    let tt := get_ticket_type_by_name s i.guild.gid ticket_type_name
    -- line 73: not guild_config or not guild_config[category] or not ticket_type_db
    match cfg, tt with
    | some c, some ttrow =>
      if ¬ optTruthy c.ticket_channel_category_id then
        (.ok [.msg "Ticket system is not fully configured. Contact an admin."], s)
      else
        -- lines 78-79: open-ticket limit check; guild_config.get raises
        let _open_tickets := get_open_tickets_by_user s i.guild.gid i.user_id
        match rowGet c "ticket_limit_per_user" 1 with
        | .error e => (.error e, s)
        | .ok limit =>
          if _open_tickets.length ≥ limit then
            (.ok [.msg ("You have reached the maximum limit of " ++ toString limit ++
              " open ticket(s).")], s)
          else
            -- lines 83-86: category must resolve to a CategoryChannel
            if (c.ticket_channel_category_id.getD 0) ∉ i.guild.categories then
              (.ok [.msg "Configured ticket category is invalid. Admin needs to fix this."], s)
            else
              -- lines 88-91: staff-role sentinel guard
              let staff := get_staff_roles_for_ticket_type s i.guild ticket_type_name cfg
              if staff_roles_guard staff i.guild.default_role then
                (.ok [.msg ("No valid staff roles configured for this ticket type. " ++
                  "Admin needs to fix this.")], s)
              else
                -- line 94: display number allocated and committed
                let (display_id, s1) := get_and_increment_ticket_counter s i.guild.gid
                -- line 97: guild_config.get raises; the number stays consumed
                match rowGet c "ticket_naming_format" "ticket-\x7buser_short\x7d-\x7bid\x7d" with
                | .error e => (.error e, s1)
                | .ok fmt =>
                  let _name := sanitize_channel_name
                    (channel_name_raw fmt i.user_name display_id ticket_type_name)
                  -- lines 111-121: channel provisioning (HTTPException caught)
                  match create_channel_res with
                  | .error _ =>
                    (.ok [.msg "Failed to create ticket channel."], s1)
                  | .ok new_channel =>
                    -- line 123: persist the row
                    match create_ticket s1 i.guild.gid i.user_id new_channel
                        ticket_type_name display_id now with
                    | .error e => (.error e, s1)
                    | .ok s2 =>
                      -- line 126: ticket_type_db.get raises
                      match rowGet ttrow "welcome_message" (none : Option String) with
                      | .error e => (.error e, s2)
                      | .ok _ =>
                        (.ok [.msg ("Ticket created: " ++ toString new_channel)], s2)
    | _, _ =>
      (.ok [.msg "Ticket system is not fully configured. Contact an admin."], s)

/-- The close-button branch, ticket_cog.py lines 158-190, entered after the
custom_id has parsed as `ticket_actions:close:<channel_id>:<owner_id>`.
When the guild has a config row, line 177 evaluates
`guild_config.get('allow_user_close', 1)` and raises AttributeError; when
there is no config row the conditional expression short-circuits to False
and the flow continues to the permission check. -/
def close_button_flow (s : DBState) (i : Interaction) (channel_id_from_id : Int) :
    Except PyError (List Reply) × DBState :=
  -- lines 167-169: context consistency
  if (i.channel_id : Int) ≠ channel_id_from_id then
    (.ok [.msg "This button is for a different ticket."], s)
  else
    -- lines 171-174: ticket must exist and be open
    match get_ticket_by_channel s i.channel_id with
    | none => (.ok [.msg "This ticket is not valid or already closed."], s)
    | some t =>
      if t.status = "closed" then
        (.ok [.msg "This ticket is not valid or already closed."], s)
      else
        let cfg := get_guild_config s i.guild.gid
        -- line 177: can_user_close = guild_config.get('allow_user_close', 1) == 1
        --           if guild_config else False
        let can_user_close : Except PyError Bool :=
          match cfg with
          | some c => (rowGet c "allow_user_close" 1).map (fun v => v = 1)
          | none => .ok false
        match can_user_close with
        | .error e => (.error e, s)
        | .ok can_close =>
          -- lines 179-183
          let is_owner := i.user_id = t.user_id
          let applicable := get_staff_roles_for_ticket_type s i.guild t.ticket_type_name cfg
          let is_staff := is_staff_for applicable i.guild.default_role i.user_roles
          -- lines 185-190
          if ¬ is_staff ∧ (¬ is_owner ∨ ¬ can_close) then
            (.ok [.msg "You do not have permission to close this ticket."], s)
          else
            (.ok [.modal], s)

/-- TicketCog.on_interaction (ticket_cog.py, lines 42-190) for a component
interaction carrying `custom_id`.  Line 50 splits on ':'.  The namespace
tests at lines 53 and 158 evaluate `parts[1]` unguarded whenever `parts[0]`
matches, so a matching namespace with no second segment raises IndexError;
inside each branch the argument accesses (`parts[2]`, `parts[3]`,
`int(...)`) are wrapped in try/except (IndexError, ValueError) and answered
with an invalid-identifier message (lines 57-62 and 160-165). -/
def on_interaction (s : DBState) (i : Interaction) (custom_id : String)
    (create_channel_res : Except PyError Nat) (now : Nat) :
    Except PyError (List Reply) × DBState :=
  let parts := pySplit custom_id ':'
  match pyIndex parts 0 with
  | .error e => (.error e, s)
  | .ok action_type =>
    if action_type = "ticket_panel" then
      match pyIndex parts 1 with
      | .error e => (.error e, s)  -- line 53: bare "ticket_panel" raises IndexError
      | .ok p1 =>
        if p1 = "create" then
          -- line 55 defers, lines 57-62 parse inside try/except
          let args : Except PyError (Int × String) := do
            let s2 ← pyIndex parts 2
            let gid ← match pyInt s2 with
              | some n => Except.ok n
              | none => Except.error PyError.valueError
            let tname ← pyIndex parts 3
            pure (gid, tname)
          match args with
          | .error _ => (.ok [.msg "Invalid button ID."], s)
          | .ok (gid_from_id, tname) =>
            panel_create_flow s i gid_from_id tname create_channel_res now
        else
          (.ok [.silent], s)
    else if action_type = "ticket_actions" then
      match pyIndex parts 1 with
      | .error e => (.error e, s)  -- line 158: bare "ticket_actions" raises IndexError
      | .ok p1 =>
        if p1 = "close" then
          -- lines 160-165 parse inside try/except
          let args : Except PyError Int := do
            let s2 ← pyIndex parts 2
            match pyInt s2 with
            | some n => Except.ok n
            | none => Except.error PyError.valueError
          match args with
          | .error _ => (.ok [.msg "Invalid close button ID."], s)
          | .ok channel_id_from_id => close_button_flow s i channel_id_from_id
        else
          (.ok [.silent], s)
    else
      (.ok [.silent], s)

/-! ## TicketCommandsCog.close_ticket_command (ticket_commands.py, lines 14-78)

The command checks the ticket, the config and staff membership, optionally
posts a simplified transcript note, and then calls update_ticket — but the
argument `datetime.datetime.now(datetime.timezone.utc)` at line 67 is
evaluated first and raises NameError because cogs/ticket_commands.py never
imports datetime, so the update (and everything after it) never runs. -/
def close_ticket_command (s : DBState) (i : Interaction) (_reason : Option String) :
    Except PyError (List Reply) × DBState :=
  -- lines 20-23
  match get_ticket_by_channel s i.channel_id with
  | none => (.ok [.msg "This is not an active ticket channel or it\x27s already closed."], s)
  | some t =>
    if t.status = "closed" then
      (.ok [.msg "This is not an active ticket channel or it\x27s already closed."], s)
    else
      -- lines 25-28
      match get_guild_config s i.guild.gid with
      | none => (.ok [.msg "Server configuration not found."], s)
      | some c =>
        -- lines 33-43: staff-only permission check (TicketCog is loaded)
        let applicable := get_staff_roles_for_ticket_type s i.guild t.ticket_type_name (some c)
        let is_staff := is_staff_for applicable i.guild.default_role i.user_roles
        if ¬ is_staff then
          (.ok [.msg "You do not have permission to close this ticket using this command."], s)
        else
          -- lines 49-60 post a transcript note, then line 67 raises NameError
          (.error (.nameError "name datetime is not defined"), s)

/-! ## CloseTicketModal.on_submit (views.py, lines 22-121)

Platform-call results the modal cannot determine are oracle parameters:

* `capture_res` — the result of iterating `ticket_channel.history(...)` at
  lines 41-48.  This loop runs OUTSIDE the try block that starts at line 53,
  so a failure here propagates out of on_submit.
* `deliver_res` — the result of lines 54-67 (building the file, fetching the
  creator and sending to the transcript channel), all inside the try whose
  except at lines 69-71 answers with a partial-success message; on success
  it carries the jump_url recorded as the transcript locator.
* `channel_edit_ok` — whether the rename/relocate/permission edits at lines
  103-117 succeed; their except at lines 119-121 answers with a
  partial-success message.  The close-embed send at lines 94-97 has its own
  try/except pass and is invisible here. -/
def close_modal_on_submit (s : DBState) (i : Interaction) (ticket_channel_id : Nat)
    (reason_input : String) (now : Nat)
    (capture_res : Except PyError (List String))
    (deliver_res : Except PyError String)
    (channel_edit_ok : Bool) :
    Except PyError (List Reply) × DBState :=
  let cfg := get_guild_config s i.guild.gid
  let td := get_ticket_by_channel s ticket_channel_id
  let ch_exists := ticket_channel_id ∈ i.guild.channels
  -- lines 29-31
  match td, cfg with
  | some t, some c =>
    if ¬ ch_exists then
      (.ok [.msg "Error: Ticket or configuration not found."], s)
    else
      -- line 33: empty input is falsy
      let reason := if reason_input = "" then "No reason provided." else reason_input
      -- lines 36-73: transcript section
      let transcript_step : Except PyError (Option String × List Reply) :=
        if optTruthy c.transcript_channel_id then
          if c.transcript_channel_id.getD 0 ∈ i.guild.channels then
            match capture_res with
            | .error e => .error e  -- lines 41-48: outside the try, propagates
            | .ok _msgs =>
              match deliver_res with
              | .ok url => .ok (some url, [])
              | .error _ =>
                .ok (none,
                  [.msg "Ticket closed, but an error occurred while sending the transcript."])
          else
            .ok (none, [.msg "Transcript channel not found, but closing ticket."])
        else
          .ok (none, [])
      match transcript_step with
      | .error e => (.error e, s)
      | .ok (link, replies1) =>
        -- lines 76-83: persist the closed state
        let s2 := update_ticket s ticket_channel_id "closed" i.user_id now reason link
        -- lines 99-121: archive / rename / permissions
        let replies2 :=
          if channel_edit_ok then
            [Reply.msg ("Ticket #" ++ toString t.ticket_display_id ++ " has been closed.")]
          else
            [Reply.msg "Ticket closed, but an error occurred modifying the channel."]
        (.ok (replies1 ++ replies2), s2)
  | _, _ => (.ok [.msg "Error: Ticket or configuration not found."], s)

/-! ## ConfigCog.setup_defaults (config_cog.py, lines 15-47) and the
operations that write a guild_configs row

setup_defaults is a single update_guild_config call with eight keyword
arguments (lines 27-37).  `ConfigWrite` enumerates every operation in the
source that writes to the guild_configs relation: the counter
increment-and-read, a raw update_guild_config call (which also covers the
panel-save call at ticket_cog lines 234-238, caught by the surrounding
try/except at line 240), and setup_defaults.  `applyConfigWrite` is the
database state after the operation returns or raises: a raised
ProgrammingError aborts the statement, so the state is unchanged. -/

def setup_defaults_kwargs (staff_role category : Nat)
    (transcript log archive : Option Nat) : List ConfigField :=
  [ .default_staff_roles (some [staff_role]),
    .ticket_channel_category_id (some category),
    .transcript_channel_id transcript,
    .log_channel_id log,
    .archive_channel_category_id archive,
    .ticket_naming_format "ticket-\x7buser_short\x7d-\x7bid\x7d",
    .ticket_limit_per_user 1,
    .allow_user_close 1 ]

inductive ConfigWrite
  | incr (g : Nat)
  | upsert (g : Nat) (kwargs : List ConfigField)
  | setup (g staff_role category : Nat) (transcript log archive : Option Nat)

def applyConfigWrite (s : DBState) : ConfigWrite → DBState
  | .incr g => (get_and_increment_ticket_counter s g).2
  | .upsert g kwargs =>
    match update_guild_config s g kwargs with
    | .ok s2 => s2
    | .error _ => s
  | .setup g staff_role category transcript log archive =>
    match update_guild_config s g
        (setup_defaults_kwargs staff_role category transcript log archive) with
    | .ok s2 => s2
    | .error _ => s

/-- The stored ticket_counter of guild `g`, with 0 for a missing row (the
value the row would be initialized with). -/
def counterOf (s : DBState) (g : Nat) : Nat :=
  match cfgLookup s.guild_configs g with
  | some c => c.ticket_counter
  | none => 0

/-! # Theorems -/

/-! ## Helper lemmas about the association-list primitives -/

theorem cfgLookup_append_single (l : List (Nat × GuildConfig)) (k g : Nat) (v : GuildConfig) :
    cfgLookup (l ++ [(k, v)]) g =
      match cfgLookup l g with
      | some c => some c
      | none => if k = g then some v else none := by
  induction l with
  | nil => rfl
  | cons hd tl ih =>
    obtain ⟨k', v'⟩ := hd
    by_cases h : k' = g <;> simp [cfgLookup, h, ih]

theorem cfgLookup_map_val (f : Nat → GuildConfig → GuildConfig)
    (l : List (Nat × GuildConfig)) (g : Nat) :
    cfgLookup (l.map (fun p => (p.1, f p.1 p.2))) g = (cfgLookup l g).map (f g) := by
  induction l with
  | nil => rfl
  | cons hd tl ih =>
    obtain ⟨k, v⟩ := hd
    by_cases hk : k = g
    · subst hk; simp [cfgLookup]
    · simp [cfgLookup, hk, ih]

theorem cfgLookup_ctr_update (s : DBState) (g' g : Nat) :
    cfgLookup (ctr_update s g').guild_configs g =
      (cfgLookup s.guild_configs g).map
        (fun c => if g = g' then { c with ticket_counter := c.ticket_counter + 1 } else c) := by
  exact cfgLookup_map_val
    (fun k c => if k = g' then { c with ticket_counter := c.ticket_counter + 1 } else c)
    s.guild_configs g

theorem counterOf_ensure_row (s : DBState) (g' g : Nat) :
    counterOf (ctr_ensure_row s g') g = counterOf s g := by
  unfold counterOf ctr_ensure_row
  cases h : cfgLookup s.guild_configs g' with
  | some c => rfl
  | none =>
    show (match cfgLookup (s.guild_configs ++ [(g', _)]) g with
          | some c => c.ticket_counter | none => 0) = _
    rw [cfgLookup_append_single]
    cases h2 : cfgLookup s.guild_configs g with
    | some c => rfl
    | none =>
      by_cases hg : g' = g
      · subst hg; simp [h2]
      · simp [hg, h2]

theorem counterOf_ctr_update_le (s : DBState) (g' g : Nat) :
    counterOf s g ≤ counterOf (ctr_update s g') g := by
  unfold counterOf
  rw [cfgLookup_ctr_update]
  cases h : cfgLookup s.guild_configs g with
  | none => simp
  | some c =>
    by_cases hg : g = g' <;> simp [hg]

/-! ## C2: the stored ticket counter never decreases -/

theorem counterOf_applyConfigWrite_le (s : DBState) (op : ConfigWrite) (g : Nat) :
    counterOf s g ≤ counterOf (applyConfigWrite s op) g := by
  cases op with
  | incr g' =>
    show counterOf s g ≤ counterOf (get_and_increment_ticket_counter s g').2 g
    unfold get_and_increment_ticket_counter
    calc counterOf s g = counterOf (ctr_ensure_row s g') g := (counterOf_ensure_row s g' g).symm
      _ ≤ counterOf (ctr_update (ctr_ensure_row s g') g') g := counterOf_ctr_update_le _ g' g
  | upsert g' kwargs =>
    have h : (1 + kwargs.length) + (kwargs.length + 1) ≠
        (kwargs.length + 1) + kwargs.length := by omega
    simp [applyConfigWrite, update_guild_config, h]
  | setup g' staff cat tr lg ar =>
    have h : (1 + (setup_defaults_kwargs staff cat tr lg ar).length) +
        ((setup_defaults_kwargs staff cat tr lg ar).length + 1) ≠
        ((setup_defaults_kwargs staff cat tr lg ar).length + 1) +
          (setup_defaults_kwargs staff cat tr lg ar).length := by omega
    simp [applyConfigWrite, update_guild_config, h]

/-- C2: For every community and every sequence of the operations that write a
CommunityConfig row (the counter increment-and-read, any update_guild_config
call, and ConfigCog.setup_defaults), the stored ticket_counter after each
operation is greater than or equal to its value before; hence along any
trace it never decreases.  (It holds because the counter increment only adds
one and because update_guild_config always raises ProgrammingError from its
mismatched parameter bindings before writing anything.) -/
theorem ticket_counter_never_decreases (ops : List ConfigWrite) (s : DBState) (g : Nat) :
    counterOf s g ≤ counterOf (ops.foldl applyConfigWrite s) g := by
  induction ops generalizing s with
  | nil => exact Nat.le_refl _
  | cons op rest ih =>
    exact Nat.le_trans (counterOf_applyConfigWrite_le s op g) (ih (applyConfigWrite s op))

/-! ## Concrete fixtures

A fully configured guild 1: staff role 100 and @everyone role 5 are live;
channel 20 is an open ticket channel of user 7, channel 30 the transcript
channel, channel 40 the ticket-creation category.  User 7 owns the open
ticket; user 9 holds the staff role. -/

def exGuild : Guild :=
  { gid := 1, live_roles := [100, 5], default_role := 5,
    channels := [20, 30, 40], categories := [40] }

def exConfig : GuildConfig :=
  { ticket_channel_category_id := some 40, transcript_channel_id := some 30,
    default_staff_roles := some [100], ticket_counter := 0 }

def exType : TicketTypeRow :=
  { guild_id := 1, name := "bug-report", display_name := "Bug Report" }

def exOpenTicket : TicketRow :=
  { guild_id := 1, ticket_display_id := 1, user_id := 7, channel_id := 20,
    ticket_type_name := "bug-report" }

def exDB : DBState :=
  { guild_configs := [(1, exConfig)], ticket_types := [exType], tickets := [exOpenTicket] }

def exOwner : Interaction :=
  { guild := exGuild, user_id := 7, user_name := "alice", user_roles := [], channel_id := 20 }

def exStaff : Interaction :=
  { guild := exGuild, user_id := 9, user_name := "bob", user_roles := [100], channel_id := 20 }

/-! ## C1: the counter increment-and-read is not one atomic step -/

/-- C1: get_and_increment_ticket_counter is an UPDATE commit followed by a
separate SELECT, not a single transactional read-then-write, so two
concurrent calls for the same community can receive the same display
number.  Run sequentially from counter 0 the two calls return 1 then 2; but
under the interleaving select-A, select-B, update-A, update-B, read-A,
read-B (each step one committed SQL statement, interleaving at the awaits)
both calls read the counter after both updates and both return 2, and no
ticket receives number 1. -/
theorem counter_race_duplicate_number :
    (get_and_increment_ticket_counter exDB 1).1 = 1
    ∧ (get_and_increment_ticket_counter (get_and_increment_ticket_counter exDB 1).2 1).1 = 2
    ∧ (let interleaved :=
        ctr_update (ctr_update (ctr_ensure_row (ctr_ensure_row exDB 1) 1) 1) 1;
       ctr_read interleaved 1 = 2 ∧ ctr_read interleaved 1 = 2) := by
  refine ⟨rfl, rfl, rfl, rfl⟩

/-! ## C3: update_guild_config never merges anything -/

def exDBCounter5 : DBState :=
  { guild_configs := [(1, { exConfig with ticket_counter := 5 })] }

/-- C3: updating a single field of an existing row does not retain the other
fields: the upsert statement is executed with one more binding than it has
placeholders, so update_guild_config raises ProgrammingError and applies
nothing at all; and even the dead INSERT OR REPLACE fallback at lines
102-105 would reset every unnamed column to its DEFAULT (here the stored
ticket_counter 5 would become 0), so neither statement implements the
claimed merge semantics. -/
theorem update_guild_config_no_merge :
    update_guild_config exDBCounter5 1 [.panel_channel_id (some 10)]
      = .error (.programmingError "Incorrect number of bindings supplied")
    ∧ (cfgLookup (insert_or_replace_guild_config exDBCounter5 1
        [.panel_channel_id (some 10)]).guild_configs 1).map GuildConfig.ticket_counter
      = some 0 := by
  refine ⟨rfl, rfl⟩

/-! ## C7: the creation flow crashes at the limit check -/

/-- C7: a panel-creation click in a fully configured guild by a user whose
open-ticket count (1) equals the limit (1) is not answered with the
limit-exceeded message: line 79 evaluates
`guild_config.get('ticket_limit_per_user', 1)` on a sqlite3.Row, which has
no .get method, so the handler raises AttributeError before the comparison;
no reply is sent and the database (counter, tickets) is unchanged.  The
same AttributeError hits a user with zero open tickets (user 9), so no
creation request ever passes this line. -/
theorem creation_flow_crashes_at_limit_check :
    on_interaction exDB exOwner "ticket_panel:create:1:bug-report" (.ok 21) 60
      = (.error (.attributeError "sqlite3.Row object has no attribute get"), exDB)
    ∧ on_interaction exDB exStaff "ticket_panel:create:1:bug-report" (.ok 21) 60
      = (.error (.attributeError "sqlite3.Row object has no attribute get"), exDB) := by
  refine ⟨rfl, rfl⟩

/-! ## C8: a malformed custom_id can raise an unhandled IndexError -/

/-- C8: the arity of a structured identifier is not validated before use:
for the one-segment tokens "ticket_panel" and "ticket_actions" the namespace
test at line 53 (resp. 158) evaluates parts[1] and raises IndexError, which
no try/except catches, so the handler neither answers with an
invalid-identifier message nor stays exception-free (the claim fails);
malformed arguments beyond the second segment are caught (non-numeric id,
missing third or fourth segment) and answered as the claim describes. -/
theorem malformed_token_unhandled_index_error :
    on_interaction exDB exOwner "ticket_panel" (.ok 21) 60 = (.error .indexError, exDB)
    ∧ on_interaction exDB exOwner "ticket_actions" (.ok 21) 60 = (.error .indexError, exDB)
    ∧ on_interaction exDB exOwner "ticket_panel:create:abc:bug-report" (.ok 21) 60
      = (.ok [.msg "Invalid button ID."], exDB)
    ∧ on_interaction exDB exOwner "ticket_panel:create" (.ok 21) 60
      = (.ok [.msg "Invalid button ID."], exDB)
    ∧ on_interaction exDB exOwner "ticket_actions:close:abc" (.ok 21) 60
      = (.ok [.msg "Invalid close button ID."], exDB) := by
  refine ⟨rfl, rfl, rfl, rfl, rfl⟩

/-! ## C6: close authorization -/

/-- C6: the claimed authorization rule (staff, or owner while self-close is
enabled, with the slash command applying the same rule as the button) does
not hold.  In a guild whose config row exists (self-close enabled, the
default), the close button on an open ticket raises AttributeError at line
177 (`guild_config.get('allow_user_close', 1)` on a sqlite3.Row) before any
authorization decision, for owner and staff alike; and the slash command
applies a staff-only rule (ticket_commands lines 38-43), rejecting the
owner whom the policy would allow, while a staff closer passes its check
only to hit the missing datetime import at line 67. -/
theorem close_authorization_divergence :
    on_interaction exDB exOwner "ticket_actions:close:20:7" (.ok 21) 60
      = (.error (.attributeError "sqlite3.Row object has no attribute get"), exDB)
    ∧ on_interaction exDB exStaff "ticket_actions:close:20:7" (.ok 21) 60
      = (.error (.attributeError "sqlite3.Row object has no attribute get"), exDB)
    ∧ close_ticket_command exDB exOwner none
      = (.ok [.msg "You do not have permission to close this ticket using this command."], exDB)
    ∧ close_ticket_command exDB exStaff none
      = (.error (.nameError "name datetime is not defined"), exDB) := by
  refine ⟨rfl, rfl, rfl, rfl⟩

/-! ## C9: persistence of the closed state in the close/archive workflow -/

/-- The open fixture ticket as closed by staff user 9 at instant 99 with
reason "resolved" and no transcript locator. -/
def exClosedTicketNoLink : TicketRow :=
  { guild_id := 1, ticket_display_id := 1, user_id := 7, channel_id := 20,
    ticket_type_name := "bug-report", status := "closed",
    closed_by_user_id := some 9, closed_at := some 99, close_reason := some "resolved" }

/-- The same closed row with the transcript locator recorded. -/
def exClosedTicketWithLink : TicketRow :=
  { exClosedTicketNoLink with transcript_message_id := some "url" }

/-- C9: the closed state survives transcript-delivery and channel-edit
failures but NOT transcript-capture failures.  With a transcript sink
configured and resolvable: if iterating the channel history raises (the
loop at views.py lines 41-48 sits outside the try that starts at line 53),
on_submit propagates the exception and the ticket row is never closed; if
instead capture succeeds and the delivery inside the try fails, or the
later channel edit fails, the closed state (closer, timestamp, reason) is
persisted and the requester is told of the partial failure, exactly as the
claim describes for those two failure modes. -/
theorem close_persistence_vs_capture_failure :
    close_modal_on_submit exDB exStaff 20 "resolved" 99 (.error .httpError) (.ok "url") true
      = (.error .httpError, exDB)
    ∧ close_modal_on_submit exDB exStaff 20 "resolved" 99 (.ok ["m"]) (.error .httpError) true
      = (.ok [.msg "Ticket closed, but an error occurred while sending the transcript.",
              .msg "Ticket #1 has been closed."],
         { exDB with tickets := [exClosedTicketNoLink] })
    ∧ close_modal_on_submit exDB exStaff 20 "resolved" 99 (.ok ["m"]) (.ok "url") false
      = (.ok [.msg "Ticket closed, but an error occurred modifying the channel."],
         { exDB with tickets := [exClosedTicketWithLink] }) := by
  refine ⟨rfl, rfl, rfl⟩

/-! ## C4: ticket-type name normalization -/

theorem find?_append_eq {α : Type} (p : α → Bool) (l1 l2 : List α) :
    (l1 ++ l2).find? p = ((l1.find? p).orElse (fun _ => l2.find? p)) := by
  induction l1 with
  | nil => rfl
  | cons hd tl ih =>
    by_cases h : p hd
    · rw [List.cons_append, List.find?_cons_of_pos _ h, List.find?_cons_of_pos _ h]
      rfl
    · rw [List.cons_append, List.find?_cons_of_neg _ h, List.find?_cons_of_neg _ h, ih]

theorem find?_of_any_false {α : Type} (p : α → Bool) (l : List α) (h : l.any p = false) :
    l.find? p = none := by
  induction l with
  | nil => rfl
  | cons hd tl ih =>
    simp only [List.any_cons, Bool.or_eq_false_iff] at h
    rw [List.find?_cons_of_neg _ (by simp [h.1]), ih h.2]

/-- The behaviour of add_ticket_type when no row with the normalized key
exists: it reports success and appends the new row. -/
theorem add_ticket_type_fresh (s : DBState) (g : Nat) (raw display : String)
    (hany : s.ticket_types.any
      (fun r => r.guild_id = g ∧ r.name = normalize_type_name raw) = false) :
    add_ticket_type s g raw display =
      (true, { s with ticket_types := s.ticket_types ++
        [{ guild_id := g, name := normalize_type_name raw, display_name := display }] }) := by
  unfold add_ticket_type
  dsimp only
  rw [hany]
  rfl

/-- The behaviour of add_ticket_type when a row with the normalized key
already exists: the UNIQUE constraint fires and it returns (false, s). -/
theorem add_ticket_type_dup (s : DBState) (g : Nat) (raw display : String)
    (hany : s.ticket_types.any
      (fun r => r.guild_id = g ∧ r.name = normalize_type_name raw) = true) :
    add_ticket_type s g raw display = (false, s) := by
  unfold add_ticket_type
  dsimp only
  rw [hany]
  rfl

/-- C4, counterexample to the claim as stated: a lookup with the same raw
human input that was added does not resolve the stored key.  After adding
internal-name "Bug Report" (stored, normalized, as "bug-report"),
get_ticket_type_by_name with the raw input "Bug Report" returns nothing,
because the lookup (db_manager lines 145-149) matches the name verbatim and
applies no normalization. -/
theorem raw_lookup_after_add_fails :
    (add_ticket_type {} 1 "Bug Report" "Bug Report").1 = true
    ∧ get_ticket_type_by_name (add_ticket_type {} 1 "Bug Report" "Bug Report").2 1
        "Bug Report" = none := by
  refine ⟨rfl, rfl⟩

/-- C4, amended: add stores the type under the normalized key (lowercase,
spaces to hyphens), and a lookup resolves a type only under its exact stored
(normalized) key; removal through the admin command (which normalizes its
raw input before querying, config_cog line 100) resolves the same key as
add; and a second add of any input that normalizes to the same key returns
false.  What the original claim wrongly adds is that a raw-input LOOKUP also
resolves: get_ticket_type_by_name does not normalize. -/
theorem normalized_add_roundtrip (s : DBState) (g : Nat) (raw display : String)
    (h : (add_ticket_type s g raw display).1 = true) :
    get_ticket_type_by_name (add_ticket_type s g raw display).2 g (normalize_type_name raw)
      = some { guild_id := g, name := normalize_type_name raw, display_name := display }
    ∧ (∀ q r, get_ticket_type_by_name (add_ticket_type s g raw display).2 g q = some r →
        r.name = q)
    ∧ (cog_remove_type (add_ticket_type s g raw display).2 g raw).1 = true
    ∧ (∀ raw2 d2, normalize_type_name raw2 = normalize_type_name raw →
        (add_ticket_type (add_ticket_type s g raw display).2 g raw2 d2).1 = false) := by
  cases hany : s.ticket_types.any
      (fun r => r.guild_id = g ∧ r.name = normalize_type_name raw) with
  | true =>
    rw [add_ticket_type_dup s g raw display hany] at h
    exact absurd h (by simp)
  | false =>
    have hadd := add_ticket_type_fresh s g raw display hany
    rw [hadd]
    refine ⟨?_, ?_, ?_, ?_⟩
    · show (s.ticket_types ++ [_]).find? _ = _
      rw [find?_append_eq, find?_of_any_false _ _ hany]
      simp [get_ticket_type_by_name]
    · intro q r hr
      have hp := List.find?_some hr
      simp only [decide_eq_true_eq] at hp
      exact hp.2
    · show (s.ticket_types ++ [_]).any _ = true
      rw [List.any_append]
      simp
    · intro raw2 d2 heq
      have hdup : (({ s with ticket_types := s.ticket_types ++
          [{ guild_id := g, name := normalize_type_name raw,
             display_name := display }] } : DBState).ticket_types).any
          (fun r => r.guild_id = g ∧ r.name = normalize_type_name raw2) = true := by
        show (s.ticket_types ++ [_]).any _ = true
        rw [heq, List.any_append]
        simp
      rw [add_ticket_type_dup _ g raw2 d2 hdup]

/-- Witness for normalized_add_roundtrip at the concrete inputs of the
spec's round-trip example: "Bug Report" stores and resolves as "bug-report",
removal via the command with the raw name succeeds, and a second add of
"bug REPORT" (same normalized key) returns false. -/
theorem normalized_add_roundtrip_witness :
    (add_ticket_type {} 1 "Bug Report" "Bug Report").1 = true
    ∧ get_ticket_type_by_name (add_ticket_type {} 1 "Bug Report" "Bug Report").2 1
        (normalize_type_name "Bug Report")
      = some { guild_id := 1, name := normalize_type_name "Bug Report",
               display_name := "Bug Report" }
    ∧ (cog_remove_type (add_ticket_type {} 1 "Bug Report" "Bug Report").2 1 "Bug Report").1
      = true
    ∧ (add_ticket_type (add_ticket_type {} 1 "Bug Report" "Bug Report").2 1
        "bug REPORT" "Other").1 = false := by
  have h := normalized_add_roundtrip {} 1 "Bug Report" "Bug Report" rfl
  exact ⟨rfl, h.1, h.2.2.1, h.2.2.2 "bug REPORT" "Other" (by decide)⟩

/-! ## C10: the staff-role resolver and its sentinel -/

/-- C10: get_staff_roles_for_ticket_type never returns an empty list; when
neither the type's dedicated staff roles nor the community's default staff
roles resolve to a live role it returns exactly the one-element list holding
the guild's @everyone default role; and the creation flow's refusal
condition at ticket_cog line 89 holds precisely on that sentinel value
(given the never-empty fact, its `not staff_roles_to_apply` disjunct can
never fire). -/
theorem staff_resolver_sentinel (s : DBState) (guild : Guild) (tname : String)
    (cfg : Option GuildConfig) :
    get_staff_roles_for_ticket_type s guild tname cfg ≠ []
    ∧ (resolve_specific_roles s guild tname = [] → resolve_default_roles guild cfg = [] →
        get_staff_roles_for_ticket_type s guild tname cfg = [guild.default_role])
    ∧ (staff_roles_guard (get_staff_roles_for_ticket_type s guild tname cfg)
          guild.default_role = true
        ↔ get_staff_roles_for_ticket_type s guild tname cfg = [guild.default_role]) := by
  have hne : get_staff_roles_for_ticket_type s guild tname cfg ≠ [] := by
    unfold get_staff_roles_for_ticket_type
    cases hsp : resolve_specific_roles s guild tname with
    | cons a l => simp
    | nil =>
      cases hdf : resolve_default_roles guild cfg with
      | cons a l => simp
      | nil => simp
  refine ⟨hne, ?_, ?_⟩
  · intro hsp hdf
    unfold get_staff_roles_for_ticket_type
    rw [hsp, hdf]
    simp
  · unfold staff_roles_guard
    simp only [Bool.or_eq_true, decide_eq_true_eq, List.isEmpty_eq_true]
    constructor
    · rintro (h | h)
      · exact absurd h hne
      · exact h
    · intro h
      exact Or.inr h

/-- A guild in which nothing resolves: no ticket types, no config, only the
@everyone role 5 live. -/
def exBareGuild : Guild := { gid := 2, live_roles := [5], default_role := 5 }

/-- Witness for staff_resolver_sentinel: with an empty database and no
config, both resolution sources are empty, the resolver returns exactly
[5] (the @everyone role) and the creation flow's guard fires on it. -/
theorem staff_resolver_sentinel_witness :
    resolve_specific_roles {} exBareGuild "billing" = []
    ∧ resolve_default_roles exBareGuild none = []
    ∧ get_staff_roles_for_ticket_type {} exBareGuild "billing" none = [5]
    ∧ staff_roles_guard (get_staff_roles_for_ticket_type {} exBareGuild "billing" none) 5
      = true := by
  have h := staff_resolver_sentinel {} exBareGuild "billing" none
  refine ⟨rfl, rfl, h.2.1 rfl rfl, h.2.2.mpr (h.2.1 rfl rfl)⟩

/-! ## C5: close is a one-way transition -/

theorem panel_create_flow_state (s : DBState) (i : Interaction) (gid : Int) (t : String)
    (res : Except PyError Nat) (now : Nat) :
    (panel_create_flow s i gid t res now).2 = s := by
  unfold panel_create_flow
  dsimp only [rowGet]
  repeat' split <;> try rfl

theorem close_button_flow_state (s : DBState) (i : Interaction) (cid : Int) :
    (close_button_flow s i cid).2 = s := by
  unfold close_button_flow
  dsimp only [rowGet]
  repeat' split <;> try rfl

theorem on_interaction_state (s : DBState) (i : Interaction) (custom_id : String)
    (res : Except PyError Nat) (now : Nat) :
    (on_interaction s i custom_id res now).2 = s := by
  unfold on_interaction
  dsimp only
  repeat' split
  all_goals first
    | rfl
    | exact panel_create_flow_state _ _ _ _ _ _
    | exact close_button_flow_state _ _ _

theorem close_ticket_command_state (s : DBState) (i : Interaction) (r : Option String) :
    (close_ticket_command s i r).2 = s := by
  unfold close_ticket_command
  dsimp only
  repeat' split
  all_goals rfl

/-- The per-row function applied by update_ticket never changes a row's
channel id. -/
theorem update_row_channel_id (ch : Nat) (st : String) (cb ca : Nat) (r : String)
    (tr : Option String) (t : TicketRow) :
    (if t.channel_id = ch then
      { t with status := st, closed_by_user_id := some cb, closed_at := some ca,
               close_reason := some r, transcript_message_id := tr }
     else t).channel_id = t.channel_id := by
  by_cases h : t.channel_id = ch <;> simp [h]

/-- find? commutes with mapping a function that preserves the predicate. -/
theorem find?_map_pred_preserving {α : Type} (p : α → Bool) (f : α → α)
    (hp : ∀ a, p (f a) = p a) (l : List α) :
    (l.map f).find? p = ((l.find? p).map f) := by
  induction l with
  | nil => rfl
  | cons hd tl ih =>
    rw [List.map_cons, List.find?_cons, List.find?_cons, hp hd]
    cases p hd <;> simp [ih]

/-- If the ticket of a channel is closed, it is still closed after an
update_ticket that writes status 'closed' (to that or any other channel). -/
theorem update_ticket_keeps_closed (s : DBState) (ch : Nat) (cb ca : Nat) (r : String)
    (tr : Option String) (ch' : Nat)
    (h : (get_ticket_by_channel s ch').map TicketRow.status = some "closed") :
    (get_ticket_by_channel (update_ticket s ch "closed" cb ca r tr) ch').map
      TicketRow.status = some "closed" := by
  have hp : ∀ a : TicketRow,
      decide (((if a.channel_id = ch then
          { a with status := "closed", closed_by_user_id := some cb, closed_at := some ca,
                   close_reason := some r, transcript_message_id := tr }
        else a) : TicketRow).channel_id = ch') = decide (a.channel_id = ch') := by
    intro a
    by_cases hch : a.channel_id = ch <;> simp [hch]
  have hmap := find?_map_pred_preserving (fun t : TicketRow => decide (t.channel_id = ch'))
    (fun t : TicketRow =>
      if t.channel_id = ch then
        { t with status := "closed", closed_by_user_id := some cb, closed_at := some ca,
                 close_reason := some r, transcript_message_id := tr }
      else t) hp s.tickets
  show ((s.tickets.map _).find? _).map TicketRow.status = some "closed"
  rw [hmap]
  cases hfind : s.tickets.find? (fun t => t.channel_id = ch') with
  | none =>
    rw [show get_ticket_by_channel s ch' = s.tickets.find? (fun t => t.channel_id = ch')
      from rfl, hfind] at h
    simp at h
  | some t0 =>
    rw [show get_ticket_by_channel s ch' = s.tickets.find? (fun t => t.channel_id = ch')
      from rfl, hfind] at h
    simp only [Option.map_some'] at h ⊢
    by_cases hch : t0.channel_id = ch <;> simp [hch, h]

/-- C5: close is one-way.  For a ticket whose stored status is 'closed':
the close button answers the already-closed rejection and leaves the
database untouched; the close slash command answers its already-closed
rejection and leaves the database untouched; moreover no component
interaction and no close command ever changes the database here (so the
closed fields are never mutated), and the modal-submit workflow, the only
writer, can only write status 'closed', so a closed ticket never leaves the
closed state. -/
theorem closed_ticket_is_terminal (s : DBState) (i : Interaction) (t : TicketRow)
    (reason : Option String)
    (hfind : get_ticket_by_channel s i.channel_id = some t)
    (hclosed : t.status = "closed") :
    close_button_flow s i (i.channel_id : Int)
      = (.ok [.msg "This ticket is not valid or already closed."], s)
    ∧ close_ticket_command s i reason
      = (.ok [.msg "This is not an active ticket channel or it\x27s already closed."], s)
    ∧ (∀ i2 custom_id res now, (on_interaction s i2 custom_id res now).2 = s)
    ∧ (∀ i2 r2, (close_ticket_command s i2 r2).2 = s)
    ∧ (∀ i2 tc rin now cap del ed ch,
        (get_ticket_by_channel s ch).map TicketRow.status = some "closed" →
        (get_ticket_by_channel (close_modal_on_submit s i2 tc rin now cap del ed).2 ch).map
          TicketRow.status = some "closed") := by
  refine ⟨?_, ?_, ?_, ?_, ?_⟩
  · unfold close_button_flow
    rw [if_neg (by simp), hfind]
    dsimp only
    rw [if_pos hclosed]
  · unfold close_ticket_command
    rw [hfind]
    dsimp only
    rw [if_pos hclosed]
  · intro i2 custom_id res now
    exact on_interaction_state s i2 custom_id res now
  · intro i2 r2
    exact close_ticket_command_state s i2 r2
  · intro i2 tc rin now cap del ed ch h
    unfold close_modal_on_submit
    dsimp only
    repeat' split
    all_goals first
      | exact h
      | exact update_ticket_keeps_closed _ _ _ _ _ _ _ h

/-- The configured guild 1 with its only ticket already closed. -/
def exDBClosed : DBState :=
  { guild_configs := [(1, exConfig)], ticket_types := [exType],
    tickets := [exClosedTicketNoLink] }

/-- Witness for closed_ticket_is_terminal: in the fixture where ticket
channel 20 is closed, the owner's button click on channel 20 is answered
with the already-closed rejection and the database is unchanged. -/
theorem closed_ticket_is_terminal_witness :
    get_ticket_by_channel exDBClosed 20 = some exClosedTicketNoLink
    ∧ exClosedTicketNoLink.status = "closed"
    ∧ close_button_flow exDBClosed exOwner 20
      = (.ok [.msg "This ticket is not valid or already closed."], exDBClosed) := by
  have h := closed_ticket_is_terminal exDBClosed exOwner exClosedTicketNoLink none rfl rfl
  exact ⟨rfl, rfl, h.1⟩
